import Mathlib

/-!
Shallow embedding of the pysmaev SMA EV Charger client: `const.py`,
`helpers.py` and the session/token lifecycle of `core.py`.

Python dictionaries of the fixed record shapes are embedded as structures,
Python exceptions as `Except` results, and the aiohttp network interaction of
a single call is abstracted by an `HttpOutcome` value describing how the one
HTTP request made by that call ends.
-/

namespace Pysmaev

/-! Embedding of const.py -/

/-- const.py: fallback token lifetime in seconds (`TOKEN_TIMEOUT = 3600`). -/
def TOKEN_TIMEOUT : Nat := 3600

/-- const.py: `REQUEST_TIMEOUT = 15` (kept for completeness; the timeout value
does not influence the abstracted request semantics). -/
def REQUEST_TIMEOUT : Nat := 15

def URL_TOKEN : String := "/api/v1/token"

def URL_MEASUREMENTS : String := "/api/v1/measurements/live"

def URL_PARAMETERS : String := "/api/v1/parameters/search"

def URL_SET_PARAMETERS : String := "/api/v1/parameters"

def METH_POST : String := "POST"

/-! Embedding of helpers.py: measurement and parameter channel lookup -/

/-- One record of the measurements document: a Python dict with keys
`componentId`, `channelId` and `values`.  The shape of `values` is never
inspected by the lookup, so it is a type parameter. -/
structure MeasurementRecord (α : Type) where
  componentId : String
  channelId : String
  values : α
deriving DecidableEq

/-- Embeds `helpers.get_measurements_channel`: the `for channel in measurements`
loop with `break`/`else`, returning `channel["values"]` of the first record
matching both ids, and raising a combined `KeyError` otherwise.  The raised
`KeyError` is embedded as `Except.error` carrying the message string. -/
def get_measurements_channel {α : Type} (measurements : List (MeasurementRecord α))
    (channel_id : String) (component_id : String) : Except String α :=
  match measurements with
  | [] => .error ("component_id " ++ component_id ++ " with channel_id " ++
      channel_id ++ " does not exist")
  | channel :: rest =>
    if channel.componentId = component_id ∧ channel.channelId = channel_id then
      .ok channel.values
    else
      get_measurements_channel rest channel_id component_id

/-- One channel entry of the parameters document (data model of the spec:
value, timestamp, editable, state; plus its `channelId` key). -/
structure ParameterChannel where
  channelId : String
  value : String
  timestamp : String
  editable : Bool
  state : String
deriving DecidableEq

/-- One component entry of the parameters document: `componentId` plus the
list of channel entries under the key `values`. -/
structure ParameterComponent where
  componentId : String
  values : List ParameterChannel
deriving DecidableEq

/-- The first `for component in parameters` loop of
`helpers.get_parameters_channel` (first match wins, `None` when the loop
falls through to `else`). -/
def find_first_component : List ParameterComponent → String → Option ParameterComponent
  | [], _ => none
  | component :: rest, component_id =>
    if component.componentId = component_id then some component
    else find_first_component rest component_id

/-- The second `for channel in component["values"]` loop of
`helpers.get_parameters_channel`. -/
def find_first_channel : List ParameterChannel → String → Option ParameterChannel
  | [], _ => none
  | channel :: rest, channel_id =>
    if channel.channelId = channel_id then some channel
    else find_first_channel rest channel_id

/-- Embeds `helpers.get_parameters_channel`: locate the component by `componentId`
(`KeyError` naming only the component when absent), then the channel by
`channelId` within it (`KeyError` naming only the channel when absent), and
return the full channel record. -/
def get_parameters_channel (parameters : List ParameterComponent)
    (channel_id : String) (component_id : String) : Except String ParameterChannel :=
  match find_first_component parameters component_id with
  | none => .error ("component_id " ++ component_id ++ " does not exist")
  | some component =>
    match find_first_channel component.values channel_id with
    | none => .error ("channel_id " ++ channel_id ++ " does not exist")
    | some channel => .ok channel

/-! Embedding of helpers.py: evchargerformat -/

/-- A `datetime.datetime` value as far as `evchargerformat` observes it.
Fields are assumed to satisfy datetime's range invariants (1 ≤ month ≤ 12,
hour < 24, minute, second < 60, microsecond < 10^6, year ≤ 9999); the
fixed-width rendering below is faithful on that domain.  `utcoffset_minutes`
is the tzinfo's UTC offset in minutes (`none` for a naive datetime). -/
structure PyDatetime where
  year : Nat
  month : Nat
  day : Nat
  hour : Nat
  minute : Nat
  second : Nat
  microsecond : Nat
  utcoffset_minutes : Option Int
deriving DecidableEq

/-- The decimal digit character of `d % 10`. -/
def digitChar (d : Nat) : Char := Char.ofNat (48 + d % 10)

/-- Two-digit zero-padded rendering, as C `%02d` of an in-range field. -/
def pad2Chars (n : Nat) : List Char := [digitChar (n / 10), digitChar n]

/-- Three-digit zero-padded rendering, as C `%03d` of an in-range field. -/
def pad3Chars (n : Nat) : List Char := [digitChar (n / 100), digitChar (n / 10), digitChar n]

/-- Four-digit zero-padded rendering, as C `%04d` of an in-range field. -/
def pad4Chars (n : Nat) : List Char := [digitChar (n / 1000), digitChar (n / 100), digitChar (n / 10), digitChar n]

/-- The offset suffix `isoformat` appends for an aware datetime: sign, then
`HH:MM` of the absolute offset.  A naive datetime gets no suffix. -/
def offsetChars : Option Int → List Char
  | none => []
  | some m =>
    (if 0 ≤ m then '+' else '-') ::
      (pad2Chars (m.natAbs / 60) ++ ':' :: pad2Chars (m.natAbs % 60))

/-- The characters of `timestamp.isoformat(timespec='milliseconds')` before
the offset suffix: date, `T`, time, and the microsecond field truncated (not
rounded) to milliseconds. -/
def isoBase (t : PyDatetime) : List Char :=
  pad4Chars t.year ++ '-' :: pad2Chars t.month ++ '-' :: pad2Chars t.day ++
    'T' :: pad2Chars t.hour ++ ':' :: pad2Chars t.minute ++ ':' :: pad2Chars t.second ++
    '.' :: pad3Chars (t.microsecond / 1000)

/-- Embeds `timestamp.isoformat(timespec='milliseconds')`. -/
def isoformat_milliseconds (t : PyDatetime) : String :=
  String.mk (isoBase t ++ offsetChars t.utcoffset_minutes)

/-- Python `s.split('+')[0]`: the prefix of `s` before its first `'+'`. -/
def split_before (c : Char) (s : String) : String :=
  String.mk (s.data.takeWhile (fun a => a != c))

/-- Embeds `helpers.evchargerformat`:
`f-string of timestamp.isoformat(timespec='milliseconds').split('+')[0]`
followed by a literal `Z`. -/
def evchargerformat (t : PyDatetime) : String :=
  split_before '+' (isoformat_milliseconds t) ++ "Z"

/-! Embedding of urllib.parse.quote_plus, used by core.py -/

/-- The UTF-8 bytes of a character (RFC 3629). -/
def utf8Bytes (c : Char) : List Nat :=
  let n := c.toNat
  if n < 128 then [n]
  else if n < 2048 then [192 + n / 64, 128 + n % 64]
  else if n < 65536 then [224 + n / 4096, 128 + n / 64 % 64, 128 + n % 64]
  else [240 + n / 262144, 128 + n / 4096 % 64, 128 + n / 64 % 64, 128 + n % 64]

/-- Bytes `urllib.parse.quote` never escapes: ASCII letters, digits and
`_ . - ~`. -/
def isUrlSafeByte (b : Nat) : Bool :=
  if (48 ≤ b ∧ b ≤ 57) ∨ (65 ≤ b ∧ b ≤ 90) ∨ (97 ≤ b ∧ b ≤ 122) ∨
      b = 95 ∨ b = 46 ∨ b = 45 ∨ b = 126 then true else false

/-- Uppercase hexadecimal digit of `n < 16`. -/
def hexChar (n : Nat) : Char :=
  if n < 10 then digitChar n else Char.ofNat (55 + n)

/-- Percent-escaping of one byte under `quote_plus`: safe bytes unchanged, a
space becomes `+`, everything else becomes `%XX` with uppercase hex. -/
def quoteByte (b : Nat) : String :=
  if isUrlSafeByte b then String.singleton (Char.ofNat b)
  else if b = 32 then "+"
  else "%" ++ String.singleton (hexChar (b / 16)) ++ String.singleton (hexChar (b % 16))

/-- Embeds `urllib.parse.quote_plus` over the UTF-8 encoding of the string. -/
def quote_plus (s : String) : String :=
  String.join (s.data.map (fun c => String.join ((utf8Bytes c).map quoteByte)))

/-! Embedding of core.py: session state and network abstraction -/

/-- An `asyncio.TimerHandle` as the session observes it: the delay (in whole
seconds, as passed to `call_later`) and whether `cancel()` has been called. -/
structure TimerHandle where
  delay : Nat
  cancelled : Bool
deriving DecidableEq

/-- The mutable state of a `SmaEvCharger` instance (`core.py`). -/
structure SmaEvCharger where
  url : String
  username : String
  password : String
  access_token : String
  refresh_token : String
  is_closed : Bool
  token_refresh_handle : Option TimerHandle
deriving DecidableEq

/-- The token response dict.  `none` fields embed absent keys.  A dict that
is present but lacks one of the three keys is a `some` with that field
`none`; the empty dict `{}` is represented separately (see `HttpOutcome`). -/
structure TokenResponse where
  access_token : Option String
  refresh_token : Option String
  expires_in : Option Nat
deriving DecidableEq

/-- The exceptions of `core.py` as the embedded operations surface them:
`aiohttp.ClientResponseError` from `raise_for_status`, the library's own
connection and authentication errors, and Python `KeyError` (carrying the
missing key). -/
inductive EvError where
  | clientResponse (status : Nat)
  | connection (msg : String)
  | authentication (msg : String)
  | keyError (key : String)
deriving DecidableEq

/-- How the single HTTP request of a call ends, abstracting the network.
`success body` is a 2xx response whose body parses as JSON; `body = none`
embeds a falsy parsed value (`null`, `{}`, ...), which `response_json or {}`
turns into the empty dict.  `invalidJson` is a 2xx response whose body is
absent or not valid JSON (`ContentTypeError` / `JSONDecodeError`).
`httpError s` is a non-2xx status, raised by `raise_for_status`.  The last
three are `ServerDisconnectedError`, `ClientConnectionError` and
`asyncio.TimeoutError` respectively. -/
inductive HttpOutcome (α : Type) where
  | success (body : Option α)
  | invalidJson
  | httpError (status : Nat)
  | serverDisconnected
  | connectionError
  | timeout
deriving DecidableEq

/-- Python `url.rstrip("/")`. -/
def rstripSlashes (u : String) : String :=
  String.mk (u.data.reverse.dropWhile (fun c => c == '/')).reverse

/-- Python `s.startswith(pre)`. -/
def startswith (s : String) (pre : String) : Bool :=
  pre.data.isPrefixOf s.data

/-- Embeds `SmaEvCharger.__init__`: normalize the base URL (strip trailing slashes,
default the scheme to `http://` when the given URL does not start with
`http`), empty tokens, closed, no timer. -/
def init (url : String) (username : String) (password : String) : SmaEvCharger :=
  let stripped := rstripSlashes url
  { url := if startswith url "http" then stripped else "http://" ++ stripped
    username := username
    password := password
    access_token := ""
    refresh_token := ""
    is_closed := true
    token_refresh_handle := none }

/-- Embeds `SmaEvCharger.close`: set `is_closed`, and cancel the pending timer when
one is stored (the handle object stays stored, marked cancelled).  Nothing
else is touched. -/
def close (s : SmaEvCharger) : SmaEvCharger :=
  { s with
    is_closed := true
    token_refresh_handle := s.token_refresh_handle.map (fun h => { h with cancelled := true }) }

/-- Embeds `SmaEvCharger.request_json`: issue one request and map the outcome.  The
`method`, `url` and `data` arguments are carried for fidelity but the
abstracted outcome already describes how the exchange ends.  A 2xx non-JSON
body is logged and turned into the empty dict; `raise_for_status` errors
propagate unchanged; a server disconnect, connection error or timeout closes
the session and raises the library's connection error. -/
def request_json {α : Type} (s : SmaEvCharger) (method : String) (url : String)
    (data : String) (out : HttpOutcome α) :
    SmaEvCharger × Except EvError (Option α) :=
  match out with
  | .success body => (s, .ok body)
  | .invalidJson => (s, .ok none)
  | .httpError status => (s, .error (.clientResponse status))
  | .serverDisconnected =>
    (close s, .error (.connection ("Server at " ++ s.url ++ " disconnected.")))
  | .connectionError =>
    (close s, .error (.connection ("Could not connect to SMA EV Charger at " ++ s.url)))
  | .timeout =>
    (close s, .error (.connection ("Could not connect to SMA EV Charger at " ++ s.url)))

/-- The form body `request_token` builds: the refresh-token grant only when a
refresh token is stored AND `force_credentials` is false, otherwise the
password grant with `quote_plus`-encoded credentials. -/
def token_request_body (s : SmaEvCharger) (force_credentials : Bool) : String :=
  if s.refresh_token ≠ "" ∧ ¬force_credentials then
    "grant_type=refresh_token&refresh_token=" ++ s.refresh_token
  else
    "grant_type=password&username=" ++ quote_plus s.username ++
      "&password=" ++ quote_plus s.password

/-- Python default of `request_token`'s `force_credentials` parameter
(`force_credentials: bool = True`).  The timer callback
`lambda: asyncio.create_task(self.request_token(auto_refresh=True))` passes
only `auto_refresh`, so the scheduled background refresh runs with this
default. -/
def request_token_force_credentials_default : Bool := true

/-- The delay passed to `call_later`: the source computes
`int(expires_in * 0.9)` in IEEE-754 doubles, which for every expiry of the
magnitudes involved (integer seconds far below 2^50) equals the truncated
rational `9 * expires_in / 10`. -/
def tokenRefreshDelay (expires_in : Nat) : Nat := expires_in * 9 / 10

/-- Embeds `SmaEvCharger.request_token`: cancel any stored timer, send the grant
request, and absorb the response.  An empty result clears the stored refresh
token and is returned as-is.  Otherwise `result["access_token"]` and
`result["refresh_token"]` are read by plain indexing (a missing key raises
`KeyError`, after any previous assignment already happened), `expires_in`
falls back to `TOKEN_TIMEOUT`, and with `auto_refresh` a fresh timer is
stored with delay `int(expires_in * 0.9)`. -/
def request_token (s : SmaEvCharger) (out : HttpOutcome TokenResponse)
    (auto_refresh : Bool) (force_credentials : Bool) :
    SmaEvCharger × Except EvError (Option TokenResponse) :=
  let s1 := { s with
    token_refresh_handle := s.token_refresh_handle.map (fun h => { h with cancelled := true }) }
  let data := token_request_body s1 force_credentials
  match request_json s1 METH_POST URL_TOKEN data out with
  | (s2, .error e) => (s2, .error e)
  | (s2, .ok none) => ({ s2 with refresh_token := "" }, .ok none)
  | (s2, .ok (some result)) =>
    match result.access_token with
    | none => (s2, .error (.keyError "access_token"))
    | some access_token =>
      match result.refresh_token with
      | none => ({ s2 with access_token := access_token }, .error (.keyError "refresh_token"))
      | some refresh_token =>
        let expires_in := result.expires_in.getD TOKEN_TIMEOUT
        let s3 := { s2 with access_token := access_token, refresh_token := refresh_token }
        let s4 :=
          if auto_refresh then
            { s3 with token_refresh_handle := some ⟨tokenRefreshDelay expires_in, false⟩ }
          else s3
        (s4, .ok (some result))

/-- The scheduled background refresh: `request_token(auto_refresh=True)` with
`force_credentials` left at its Python default. -/
def background_refresh (s : SmaEvCharger) (out : HttpOutcome TokenResponse) :
    SmaEvCharger × Except EvError (Option TokenResponse) :=
  request_token s out true request_token_force_credentials_default

/-- The form body the scheduled background refresh sends. -/
def background_refresh_body (s : SmaEvCharger) : String :=
  token_request_body s request_token_force_credentials_default

/-- Embeds `SmaEvCharger.open`: `request_token(auto_refresh=True,
force_credentials=True)`; only `ClientResponseError` is caught and re-raised
as the authentication error, every other exception propagates; on success
`is_closed` is set to `False` and `True` is returned. -/
def open_ (s : SmaEvCharger) (out : HttpOutcome TokenResponse) :
    SmaEvCharger × Except EvError Bool :=
  match request_token s out true true with
  | (s1, .error (.clientResponse _)) =>
    (s1, .error (.authentication "Could not authorize. Invalid credentials?"))
  | (s1, .error e) => (s1, .error e)
  | (s1, .ok _) => ({ s1 with is_closed := false }, .ok true)

/-! Fixture values used by concrete theorems below -/

/-- A live session holding tokens and a pending refresh timer. -/
def sampleSession : SmaEvCharger :=
  { url := "http://host"
    username := "user"
    password := "pw"
    access_token := "OLD-ACCESS"
    refresh_token := "RTOK9"
    is_closed := false
    token_refresh_handle := some ⟨3240, false⟩ }

/-- A token response carrying an access token but no `refresh_token` key. -/
def tokenResponseNoRefresh : HttpOutcome TokenResponse :=
  .success (some ⟨some "ACCESS-TOKEN", none, some 3600⟩)

/-- Measurement fixture: a record of another component followed by the
matching record of `IGULD:SELF` (values are plain numbers here; the lookup
never inspects them). -/
def measFixtureOther : MeasurementRecord Int :=
  ⟨"OTHER:COMP", "Measurement.ChaSess.WhIn", 111⟩

/-- Measurement fixture: the `IGULD:SELF` record with value 420. -/
def measFixtureSelf : MeasurementRecord Int :=
  ⟨"IGULD:SELF", "Measurement.ChaSess.WhIn", 420⟩

/-- Parameter fixture: a nameplate channel preceding the looked-up one. -/
def paramFixtureLocation : ParameterChannel :=
  ⟨"Parameter.Nameplate.Location", "Garage", "2023-12-03T04:56:07.123Z", false, "Confirmed"⟩

/-- Parameter fixture: the charge-mode channel of the spec's test fixture. -/
def paramFixtureChaMod : ParameterChannel :=
  ⟨"Parameter.Chrg.ActChaMod", "4719", "2023-12-03T04:56:07.123Z", true, "Confirmed"⟩

/-- Parameter fixture: the single `IGULD:SELF` component. -/
def paramFixtureComponent : ParameterComponent :=
  ⟨"IGULD:SELF", [paramFixtureLocation, paramFixtureChaMod]⟩

/-! Theorems settling the claims -/

/-- C1: the claim says the background refresh fired by the scheduled timer
uses grant type `refresh_token` whenever a refresh token is stored.  The
code does not: the timer callback calls `request_token(auto_refresh=True)`
leaving `force_credentials` at its Python default `True`, so the guard
`self.refresh_token and not force_credentials` is false and the credential
grant is sent even though a non-empty refresh token is stored.  Passing
`force_credentials=False` (which no code path does) would select the
refresh-token grant, showing the branch itself matches the claim. -/
theorem c1_background_refresh_sends_credential_grant :
    sampleSession.refresh_token ≠ "" ∧
    background_refresh_body sampleSession =
      "grant_type=password&username=user&password=pw" ∧
    background_refresh_body sampleSession ≠
      "grant_type=refresh_token&refresh_token=" ++ sampleSession.refresh_token ∧
    token_request_body sampleSession false =
      "grant_type=refresh_token&refresh_token=" ++ sampleSession.refresh_token := by
  refine ⟨by decide, by decide, by decide, by decide⟩

/-- C2 counterexample: on a session holding tokens, `close` leaves both the
access token and the refresh token in place, refuting the claim that after
`close()` the stored tokens are cleared (empty). -/
theorem c2_close_leaves_tokens_stored :
    ¬((close sampleSession).access_token = "" ∧
      (close sampleSession).refresh_token = "") := by
  decide

/-- C2 amended: after `close` the session is marked closed and any pending
refresh timer has been cancelled (the call is total, hence safe with no
pending timer, which is mapped over unchanged as `none`); the stored access
and refresh tokens are left untouched, not cleared. -/
theorem c2_close_marks_closed_and_cancels_timer (s : SmaEvCharger) :
    (close s).is_closed = true ∧
    (close s).token_refresh_handle =
      s.token_refresh_handle.map (fun h => { h with cancelled := true }) ∧
    (close s).access_token = s.access_token ∧
    (close s).refresh_token = s.refresh_token := by
  exact ⟨rfl, rfl, rfl, rfl⟩

/-- C3 counterexample: a 2xx token response containing `access_token` but no
`refresh_token` key makes `open()` fail with `KeyError('refresh_token')`
instead of succeeding, and the session stays closed. -/
theorem c3_missing_refresh_token_key_fails :
    (open_ (init "http://host" "user" "pw") tokenResponseNoRefresh).2 =
      .error (.keyError "refresh_token") ∧
    (open_ (init "http://host" "user" "pw") tokenResponseNoRefresh).1.is_closed = true := by
  exact ⟨rfl, rfl⟩

/-- C3 amended: `request_token` succeeds only when the response carries both
`access_token` and `refresh_token`; both are then stored.  When the
`refresh_token` key is absent the plain indexing `result["refresh_token"]`
raises `KeyError` — after `self.access_token` has already been assigned — so
`open()` propagates the error rather than opening the session. -/
theorem c3_refresh_token_key_required (s : SmaEvCharger) (a r : String)
    (e : Option Nat) (auto fc : Bool) :
    ((request_token s (.success (some ⟨some a, some r, e⟩)) auto fc).2 =
        .ok (some ⟨some a, some r, e⟩) ∧
      (request_token s (.success (some ⟨some a, some r, e⟩)) auto fc).1.access_token = a ∧
      (request_token s (.success (some ⟨some a, some r, e⟩)) auto fc).1.refresh_token = r) ∧
    ((request_token s (.success (some ⟨some a, none, e⟩)) auto fc).2 =
        .error (.keyError "refresh_token") ∧
      (request_token s (.success (some ⟨some a, none, e⟩)) auto fc).1.access_token = a) := by
  cases auto <;>
    exact ⟨⟨rfl, rfl, rfl⟩, rfl, rfl⟩

/-- C4: a successful token fetch with `auto_refresh` stores a fresh,
uncancelled timer whose delay is nine tenths (the source's
`int(expires_in * 0.9)`) of the response's `expires_in`, with the constant
`TOKEN_TIMEOUT = 3600` taking the place of a missing `expires_in`; in
particular `expires_in = 3000` schedules the refresh 2700 seconds later and
a missing `expires_in` schedules it 3240 seconds later. -/
theorem c4_refresh_scheduled_at_ninety_percent (s : SmaEvCharger) (a r : String)
    (e : Option Nat) (fc : Bool) :
    (request_token s (.success (some ⟨some a, some r, e⟩)) true fc).1.token_refresh_handle =
      some ⟨e.getD TOKEN_TIMEOUT * 9 / 10, false⟩ ∧
    TOKEN_TIMEOUT = 3600 ∧
    (request_token s (.success (some ⟨some a, some r, some 3000⟩)) true fc).1.token_refresh_handle =
      some ⟨2700, false⟩ ∧
    (request_token s (.success (some ⟨some a, some r, none⟩)) true fc).1.token_refresh_handle =
      some ⟨3240, false⟩ := by
  refine ⟨rfl, rfl, ?_, ?_⟩ <;>
    norm_num [request_token, request_json, tokenRefreshDelay, TOKEN_TIMEOUT]

/-- C8: a 2xx response whose body is absent or not valid JSON (the caught
`ContentTypeError`/`JSONDecodeError` path), and likewise a falsy parsed body
(the `response_json or {}` guard), is returned as the empty result with no
error raised and the session untouched. -/
theorem c8_invalid_json_is_soft_empty_result {α : Type} (s : SmaEvCharger)
    (method url data : String) :
    request_json s method url data (.invalidJson : HttpOutcome α) = (s, .ok none) ∧
    request_json s method url data (.success (none : Option α)) = (s, .ok none) := by
  exact ⟨rfl, rfl⟩

/-- C9: a server disconnect, a connection failure or a timeout makes
`request_json` return the `SmaEvChargerConnectionError` and, before the error
propagates, the owning session has been closed (`close` has run on it). -/
theorem c9_connection_failures_close_session {α : Type} (s : SmaEvCharger)
    (method url data : String) (out : HttpOutcome α)
    (h : out = .serverDisconnected ∨ out = .connectionError ∨ out = .timeout) :
    (request_json s method url data out).1 = close s ∧
    (request_json s method url data out).1.is_closed = true ∧
    ∃ msg, (request_json s method url data out).2 = .error (.connection msg) := by
  rcases h with rfl | rfl | rfl <;> exact ⟨rfl, rfl, _, rfl⟩

/-- C9 witness: the theorem applied to a concrete live session and a server
disconnect. -/
theorem c9_connection_failures_close_session_witness :
    (request_json sampleSession "POST" "/api/v1/measurements/live" "[]"
        (.serverDisconnected : HttpOutcome Unit)).1.is_closed = true ∧
    (request_json sampleSession "POST" "/api/v1/measurements/live" "[]"
        (.serverDisconnected : HttpOutcome Unit)).2 =
      .error (.connection "Server at http://host disconnected.") := by
  exact ⟨(c9_connection_failures_close_session sampleSession "POST"
    "/api/v1/measurements/live" "[]" HttpOutcome.serverDisconnected (Or.inl rfl)).2.1, rfl⟩

/-- C10: when the token endpoint answers the initial credential request of
`open()` with a 2xx response whose body is empty/invalid JSON (or a falsy
JSON value), `request_token` returns the empty result without raising, so
`open()` still returns `True` and marks the session open while the access
token is still the empty string, the refresh token is cleared and no refresh
timer is scheduled. -/
theorem c10_open_succeeds_without_token (url username password : String)
    (out : HttpOutcome TokenResponse)
    (h : out = .invalidJson ∨ out = .success none) :
    (open_ (init url username password) out).2 = .ok true ∧
    (open_ (init url username password) out).1.is_closed = false ∧
    (open_ (init url username password) out).1.access_token = "" ∧
    (open_ (init url username password) out).1.refresh_token = "" ∧
    (open_ (init url username password) out).1.token_refresh_handle = none := by
  rcases h with rfl | rfl <;> exact ⟨rfl, rfl, rfl, rfl, rfl⟩

/-- C10 witness: the theorem applied at concrete credentials and the
invalid-JSON outcome. -/
theorem c10_open_succeeds_without_token_witness :
    (open_ (init "http://host" "user" "pw")
        (.invalidJson : HttpOutcome TokenResponse)).2 = .ok true ∧
    (open_ (init "http://host" "user" "pw")
        (.invalidJson : HttpOutcome TokenResponse)).1.access_token = "" := by
  exact ⟨(c10_open_succeeds_without_token "http://host" "user" "pw"
      HttpOutcome.invalidJson (Or.inl rfl)).1,
    (c10_open_succeeds_without_token "http://host" "user" "pw"
      HttpOutcome.invalidJson (Or.inl rfl)).2.2.1⟩

/-! Lookup lemmas shared by the channel-lookup claims -/

theorem find_first_component_eq_none {l : List ParameterComponent} {component_id : String}
    (h : ∀ c ∈ l, c.componentId ≠ component_id) :
    find_first_component l component_id = none := by
  induction l with
  | nil => rfl
  | cons c rest ih =>
    rw [find_first_component, if_neg (h c (List.mem_cons_self c rest))]
    exact ih (fun x hx => h x (List.mem_cons_of_mem c hx))

theorem find_first_component_eq_first {pre : List ParameterComponent}
    {comp : ParameterComponent} {suf : List ParameterComponent} {component_id : String}
    (hpre : ∀ c ∈ pre, c.componentId ≠ component_id)
    (hcomp : comp.componentId = component_id) :
    find_first_component (pre ++ comp :: suf) component_id = some comp := by
  induction pre with
  | nil => simp [find_first_component, hcomp]
  | cons p rest ih =>
    rw [List.cons_append, find_first_component,
      if_neg (hpre p (List.mem_cons_self p rest))]
    exact ih (fun x hx => hpre x (List.mem_cons_of_mem p hx))

theorem find_first_component_sound {l : List ParameterComponent} {component_id : String}
    {comp : ParameterComponent}
    (h : find_first_component l component_id = some comp) :
    comp ∈ l ∧ comp.componentId = component_id := by
  induction l with
  | nil => exact absurd h (by simp [find_first_component])
  | cons c rest ih =>
    rw [find_first_component] at h
    by_cases hc : c.componentId = component_id
    · rw [if_pos hc] at h
      cases h
      exact ⟨List.mem_cons_self _ _, hc⟩
    · rw [if_neg hc] at h
      obtain ⟨hm, he⟩ := ih h
      exact ⟨List.mem_cons_of_mem c hm, he⟩

theorem find_first_channel_eq_none {l : List ParameterChannel} {channel_id : String}
    (h : ∀ ch ∈ l, ch.channelId ≠ channel_id) :
    find_first_channel l channel_id = none := by
  induction l with
  | nil => rfl
  | cons ch rest ih =>
    rw [find_first_channel, if_neg (h ch (List.mem_cons_self ch rest))]
    exact ih (fun x hx => h x (List.mem_cons_of_mem ch hx))

theorem find_first_channel_eq_first {pre : List ParameterChannel}
    {ch : ParameterChannel} {suf : List ParameterChannel} {channel_id : String}
    (hpre : ∀ c ∈ pre, c.channelId ≠ channel_id)
    (hch : ch.channelId = channel_id) :
    find_first_channel (pre ++ ch :: suf) channel_id = some ch := by
  induction pre with
  | nil => simp [find_first_channel, hch]
  | cons p rest ih =>
    rw [List.cons_append, find_first_channel,
      if_neg (hpre p (List.mem_cons_self p rest))]
    exact ih (fun x hx => hpre x (List.mem_cons_of_mem p hx))

theorem find_first_channel_sound {l : List ParameterChannel} {channel_id : String}
    {ch : ParameterChannel}
    (h : find_first_channel l channel_id = some ch) :
    ch ∈ l ∧ ch.channelId = channel_id := by
  induction l with
  | nil => exact absurd h (by simp [find_first_channel])
  | cons c rest ih =>
    rw [find_first_channel] at h
    by_cases hc : c.channelId = channel_id
    · rw [if_pos hc] at h
      cases h
      exact ⟨List.mem_cons_self _ _, hc⟩
    · rw [if_neg hc] at h
      obtain ⟨hm, he⟩ := ih h
      exact ⟨List.mem_cons_of_mem c hm, he⟩

/-- C5: on the flat measurements document, `get_measurements_channel` returns
the `values` of the first record in document order whose `componentId` and
`channelId` both match, and when no record matches both it fails with the
single combined error message naming the missing component and channel
together, not distinguishing which of the two was wrong. -/
theorem c5_measurements_first_match_or_combined_error {α : Type}
    (doc : List (MeasurementRecord α)) (channel_id component_id : String) :
    ((∀ r ∈ doc, ¬(r.componentId = component_id ∧ r.channelId = channel_id)) →
      get_measurements_channel doc channel_id component_id =
        .error ("component_id " ++ component_id ++ " with channel_id " ++
          channel_id ++ " does not exist")) ∧
    (∀ pre rec suf, doc = pre ++ rec :: suf →
      (∀ r ∈ pre, ¬(r.componentId = component_id ∧ r.channelId = channel_id)) →
      rec.componentId = component_id → rec.channelId = channel_id →
      get_measurements_channel doc channel_id component_id = .ok rec.values) := by
  constructor
  · intro h
    induction doc with
    | nil => rfl
    | cons c rest ih =>
      rw [get_measurements_channel, if_neg (h c (List.mem_cons_self c rest))]
      exact ih (fun x hx => h x (List.mem_cons_of_mem c hx))
  · intro pre rec suf hdoc hpre hc hk
    subst hdoc
    induction pre with
    | nil => simp [get_measurements_channel, hc, hk]
    | cons p rest ih =>
      rw [List.cons_append, get_measurements_channel,
        if_neg (hpre p (List.mem_cons_self p rest))]
      exact ih (fun x hx => hpre x (List.mem_cons_of_mem p hx))

/-- C5 witness: the theorem applied to a two-record fixture, both for the
first-match result and for the combined not-found error. -/
theorem c5_measurements_first_match_or_combined_error_witness :
    get_measurements_channel [measFixtureOther, measFixtureSelf]
      "Measurement.ChaSess.WhIn" "IGULD:SELF" = .ok 420 ∧
    get_measurements_channel [measFixtureOther, measFixtureSelf]
      "Missing.Channel" "IGULD:SELF" =
        .error "component_id IGULD:SELF with channel_id Missing.Channel does not exist" := by
  constructor
  · exact (c5_measurements_first_match_or_combined_error
      [measFixtureOther, measFixtureSelf] "Measurement.ChaSess.WhIn" "IGULD:SELF").2
      [measFixtureOther] measFixtureSelf [] rfl (by decide) rfl rfl
  · exact (c5_measurements_first_match_or_combined_error
      [measFixtureOther, measFixtureSelf] "Missing.Channel" "IGULD:SELF").1 (by decide)

/-- C6: on the parameters document, `get_parameters_channel` fails with the
component-only error when no component id matches, fails with the
channel-only error when the (first) matching component holds no matching
channel, returns the full record of the first matching channel of the first
matching component otherwise, and a returned record always comes from the
document itself (never a default). -/
theorem c6_parameters_two_stage_lookup (ps : List ParameterComponent)
    (channel_id component_id : String) :
    ((∀ c ∈ ps, c.componentId ≠ component_id) →
      get_parameters_channel ps channel_id component_id =
        .error ("component_id " ++ component_id ++ " does not exist")) ∧
    (∀ pre comp suf, ps = pre ++ comp :: suf →
      (∀ c ∈ pre, c.componentId ≠ component_id) →
      comp.componentId = component_id →
      ((∀ ch ∈ comp.values, ch.channelId ≠ channel_id) →
        get_parameters_channel ps channel_id component_id =
          .error ("channel_id " ++ channel_id ++ " does not exist")) ∧
      (∀ vpre ch vsuf, comp.values = vpre ++ ch :: vsuf →
        (∀ c ∈ vpre, c.channelId ≠ channel_id) →
        ch.channelId = channel_id →
        get_parameters_channel ps channel_id component_id = .ok ch)) ∧
    (∀ ch, get_parameters_channel ps channel_id component_id = .ok ch →
      ch.channelId = channel_id ∧
      ∃ comp, comp ∈ ps ∧ comp.componentId = component_id ∧ ch ∈ comp.values) := by
  refine ⟨?_, ?_, ?_⟩
  · intro h
    rw [get_parameters_channel, find_first_component_eq_none h]
  · intro pre comp suf hps hpre hcomp
    subst hps
    constructor
    · intro h
      simp [get_parameters_channel, find_first_component_eq_first hpre hcomp,
        find_first_channel_eq_none h]
    · intro vpre ch vsuf hvals hvpre hch
      have hfc : find_first_channel comp.values channel_id = some ch := by
        rw [hvals]
        exact find_first_channel_eq_first hvpre hch
      simp [get_parameters_channel, find_first_component_eq_first hpre hcomp, hfc]
  · intro ch h
    rw [get_parameters_channel] at h
    cases hfc : find_first_component ps component_id with
    | none => simp [hfc] at h
    | some comp =>
      simp only [hfc] at h
      obtain ⟨hcm, hcid⟩ := find_first_component_sound hfc
      cases hch : find_first_channel comp.values channel_id with
      | none => simp [hch] at h
      | some ch2 =>
        simp only [hch] at h
        cases h
        obtain ⟨hm, he⟩ := find_first_channel_sound hch
        exact ⟨he, comp, hcm, hcid, hm⟩

/-- C6 witness: the theorem applied to a one-component fixture, covering the
found-channel result and both error messages. -/
theorem c6_parameters_two_stage_lookup_witness :
    get_parameters_channel [paramFixtureComponent] "Parameter.Chrg.ActChaMod" "IGULD:SELF" =
      .ok paramFixtureChaMod ∧
    get_parameters_channel [paramFixtureComponent] "Non.Existing.Channel" "IGULD:SELF" =
      .error "channel_id Non.Existing.Channel does not exist" ∧
    get_parameters_channel [paramFixtureComponent] "Parameter.Chrg.ActChaMod" "DUMMY:SELF" =
      .error "component_id DUMMY:SELF does not exist" := by
  refine ⟨?_, ?_, ?_⟩
  · exact ((c6_parameters_two_stage_lookup [paramFixtureComponent]
      "Parameter.Chrg.ActChaMod" "IGULD:SELF").2.1 [] paramFixtureComponent [] rfl
      (by decide) rfl).2 [paramFixtureLocation] paramFixtureChaMod [] rfl (by decide) rfl
  · exact ((c6_parameters_two_stage_lookup [paramFixtureComponent]
      "Non.Existing.Channel" "IGULD:SELF").2.1 [] paramFixtureComponent [] rfl
      (by decide) rfl).1 (by decide)
  · exact (c6_parameters_two_stage_lookup [paramFixtureComponent]
      "Parameter.Chrg.ActChaMod" "DUMMY:SELF").1 (by decide)

/-! Character-level lemmas for the timestamp formatter -/

theorem digitChar_ne_plus (d : Nat) : (digitChar d != '+') = true := by
  show (Char.ofNat (48 + d % 10) != '+') = true
  have h : d % 10 < 10 := Nat.mod_lt _ (by omega)
  revert h
  generalize d % 10 = k
  intro h
  interval_cases k <;> decide

theorem isoBase_all_ne_plus (t : PyDatetime) :
    (isoBase t).all (fun a => a != '+') = true := by
  simp [isoBase, pad2Chars, pad3Chars, pad4Chars, digitChar_ne_plus]

theorem takeWhile_append_of_all {p : Char → Bool} {l₁ : List Char} (l₂ : List Char)
    (h : l₁.all p = true) :
    (l₁ ++ l₂).takeWhile p = l₁ ++ l₂.takeWhile p := by
  induction l₁ with
  | nil => simp
  | cons a l ih =>
    simp only [List.all_cons, Bool.and_eq_true] at h
    simp [List.takeWhile_cons, h.1, ih h.2]

/-- C7 counterexample: a microsecond-precision timestamp carrying a negative
UTC offset (UTC-05:00, offset -300 minutes).  `split('+')[0]` does not strip
the `-05:00` suffix, so the output keeps a numeric UTC offset right before
the appended `Z`, refuting the claim for this timestamp. -/
theorem c7_negative_offset_survives :
    evchargerformat ⟨2023, 12, 3, 4, 56, 7, 123456, some (-300)⟩ =
      "2023-12-03T04:56:07.123-05:00Z" ∧
    evchargerformat ⟨2023, 12, 3, 4, 56, 7, 123456, some (-300)⟩ ≠
      "2023-12-03T04:56:07.123Z" := by
  exact ⟨by decide, by decide⟩

/-- C7 amended: for every naive timestamp and every timestamp whose UTC
offset is non-negative (in particular the UTC timestamps the library itself
formats), `evchargerformat` truncates to millisecond precision, drops the
offset suffix and appends a literal `Z`: the result is the offset-free
millisecond `isoformat` followed by `Z`.  A negative UTC offset, however, is
not stripped and stays in the output before the `Z`. -/
theorem c7_truncates_and_appends_z (t : PyDatetime)
    (h : t.utcoffset_minutes = none ∨
      ∃ m : Int, 0 ≤ m ∧ t.utcoffset_minutes = some m) :
    evchargerformat t =
      isoformat_milliseconds { t with utcoffset_minutes := none } ++ "Z" := by
  have hall := isoBase_all_ne_plus t
  rcases h with hn | ⟨m, hm, hs⟩
  · have h1 : evchargerformat t =
        String.mk ((isoBase t ++ []).takeWhile (fun a => a != '+')) ++ "Z" := by
      rw [evchargerformat, isoformat_milliseconds, hn]
      rfl
    rw [h1, takeWhile_append_of_all [] hall]
    rfl
  · have h1 : evchargerformat t =
        String.mk ((isoBase t ++
          ('+' :: (pad2Chars (m.natAbs / 60) ++ ':' :: pad2Chars (m.natAbs % 60)))).takeWhile
            (fun a => a != '+')) ++ "Z" := by
      rw [evchargerformat, isoformat_milliseconds, hs]
      show String.mk ((isoBase t ++ offsetChars (some m)).takeWhile (fun a => a != '+')) ++ "Z" = _
      rw [offsetChars, if_pos hm]
    rw [h1, takeWhile_append_of_all _ hall]
    show String.mk (isoBase t ++ List.takeWhile _ _) ++ "Z" = _
    rw [List.takeWhile_cons]
    simp only [bne_self_eq_false, Bool.false_eq_true, if_false]
    rfl

/-- C7 witness: the theorem applied to the spec's example timestamp
`2023-12-03T04:56:07.123456` (naive), giving `"2023-12-03T04:56:07.123Z"`. -/
theorem c7_truncates_and_appends_z_witness :
    evchargerformat ⟨2023, 12, 3, 4, 56, 7, 123456, none⟩ =
      "2023-12-03T04:56:07.123Z" := by
  have h := c7_truncates_and_appends_z ⟨2023, 12, 3, 4, 56, 7, 123456, none⟩ (Or.inl rfl)
  rw [h]
  decide

end Pysmaev
